import Mathlib

/-!
Verification of the series-plotting utility `analysis/plot_testbed.py` of the
Chameleon testbed repository.  The script reads `throughput_per_egress.csv`
from a measurement directory, computes the list of columns to plot
(the ColumnOrder), builds a line chart with `t` on the x-axis, and writes
`plot_testbed.html` next to the input file.

The embedding below translates each line of the script:
  * `Table` is the dataframe returned by `pd.read_csv` (ordered header plus rows);
  * `filteredKeys` is line 30, `keys` is line 32;
  * `pxLine` is `px.line(df, x="t", y=keys)`, which fails when `x` or any
    entry of `y` is not a column of the dataframe;
  * `run` is the read-then-plot pipeline, with a distinct error for the read
    step (pandas raises on a missing or malformed file) and for the plot step
    (plotly raises when a requested column is absent);
  * `joinPath`, `plot_file`, `file`, `writeHtml` and `runMain` model the path
    arithmetic and the final write of lines 26, 27, 35 and 36.
-/

namespace PlotTestbed

/-- A parsed dataframe: the ordered column names from the header row, and the
data rows (`pd.read_csv(file, sep=",")`). -/
structure Table where
  header : List String
  rows : List (List Int)
deriving DecidableEq

/-- Line 30: `keys = [k for k in df.keys() if k not in {"t", "Sum", "violations"}]`. -/
def filteredKeys (df : Table) : List String :=
  df.header.filter (fun k => !(k == "t" || k == "Sum" || k == "violations"))

/-- Line 32: `keys = ["Sum"] + ["violations"] + keys`. -/
def keys (df : Table) : List String :=
  ["Sum"] ++ ["violations"] ++ filteredKeys df

/-- The figure produced by plotly express: the x-axis column and the ordered
list of trace names (one trace per entry of `y`). -/
structure Figure where
  xAxis : String
  traces : List String
deriving DecidableEq

/-- Errors of the pipeline.  `readError` stands for the exceptions
`pd.read_csv` raises (missing, unreadable or malformed file); `plotError`
stands for the `ValueError` plotly express raises when the `x` or a `y`
column is not in the dataframe. -/
inductive PipelineError
  | readError
  | plotError
deriving DecidableEq

/-- Line 29: `df = pd.read_csv(file, sep=",")`.  A file that is missing,
unreadable or not a delimited table is the `none` input and raises; a file
that parses yields its dataframe.  `read_csv` does not require any
particular column to be present. -/
def readCsv (input : Option Table) : Except PipelineError Table :=
  match input with
  | none => .error .readError
  | some df => .ok df

/-- Line 34: `fig = px.line(df, x="t", y=keys)`.  Plotly express raises a
`ValueError` when the `x` column or any `y` column is not a column of the
dataframe; otherwise it builds one trace per `y` entry, in order. -/
def pxLine (df : Table) (x : String) (ys : List String) : Except PipelineError Figure :=
  if x ∈ df.header ∧ ∀ y ∈ ys, y ∈ df.header then
    .ok { xAxis := x, traces := ys }
  else
    .error .plotError

/-- Lines 29-34: parse the input file, compute the column order, build the
figure. -/
def run (input : Option Table) : Except PipelineError Figure :=
  match readCsv input with
  | .error e => .error e
  | .ok df => pxLine df "t" (keys df)

/-- ColumnOrder as the specification states it: the two designated columns
`Sum` and `violations` first, in that fixed order, followed by all remaining
columns in the order they originally appeared in the header, with `t`,
`Sum` and `violations` excluded from the remainder. -/
def specColumnOrder (header : List String) : List String :=
  ["Sum", "violations"] ++
    header.filter (fun k => decide (k ∉ (["t", "Sum", "violations"] : List String)))

/-- `os.path.join(p, s)` for a relative second component: concatenation with
a single separator, except that an empty first component or one already
ending in the separator adds no extra `/`. -/
def joinPath (p s : String) : String :=
  if p = "" then s
  else if p.data.getLast? = some '/' then p ++ s
  else p ++ "/" ++ s

/-- Line 26: `file = os.path.join(path, "throughput_per_egress.csv")`. -/
def file (path : String) : String := joinPath path "throughput_per_egress.csv"

/-- Line 27: `plot_file = os.path.join(path, "plot_testbed.html")`. -/
def plot_file (path : String) : String := joinPath path "plot_testbed.html"

/-- A filesystem snapshot: each path maps to the contents of the file there,
or to `none` when no file exists at that path. -/
def FileSystem : Type := String → Option String

/-- Line 35: `fig.write_html(plot_file)` — (re)place the file at the target
path with the rendered document, leaving every other path untouched. -/
def writeHtml (fs : FileSystem) (p content : String) : FileSystem :=
  fun q => if q = p then some content else fs q

/-- The observable outcome of the `__main__` block after a successful plot:
the filesystem after the write, and the path printed on line 36. -/
structure MainResult where
  fs : FileSystem
  reported : String

/-- Lines 27, 35 and 36 for a measurement directory `path` whose figure
rendered to the document `html`: write to `plot_file path` and report that
same path. -/
def runMain (path html : String) (fs0 : FileSystem) : MainResult :=
  { fs := writeHtml fs0 (plot_file path) html
    reported := plot_file path }

lemma mem_filteredKeys (df : Table) (c : String) :
    c ∈ filteredKeys df ↔ c ∈ df.header ∧ c ≠ "t" ∧ c ≠ "Sum" ∧ c ≠ "violations" := by
  simp [filteredKeys, List.mem_filter, and_assoc]

lemma mem_keys (df : Table) (c : String) :
    c ∈ keys df ↔
      c = "Sum" ∨ c = "violations" ∨
        (c ∈ df.header ∧ c ≠ "t" ∧ c ≠ "Sum" ∧ c ≠ "violations") := by
  simp [keys, mem_filteredKeys]

lemma keys_nodup (df : Table) (h : df.header.Nodup) : (keys df).Nodup := by
  simp only [keys, List.singleton_append, List.cons_append, List.nil_append,
    List.nodup_cons, List.mem_cons, mem_filteredKeys]
  refine ⟨?_, ?_, h.filter _⟩
  · simp
  · simp

lemma run_ok_iff (df : Table) (fig : Figure) :
    run (some df) = .ok fig ↔
      (("t" ∈ df.header ∧ ∀ y ∈ keys df, y ∈ df.header) ∧
        fig = { xAxis := "t", traces := keys df }) := by
  by_cases h : "t" ∈ df.header ∧ ∀ y ∈ keys df, y ∈ df.header
  · simp only [run, readCsv, pxLine, if_pos h]
    constructor
    · intro he
      exact ⟨h, ((Except.ok.injEq _ _).mp he).symm⟩
    · intro he
      rw [he.2]
  · simp only [run, readCsv, pxLine, if_neg h]
    constructor
    · intro he
      cases he
    · intro he
      exact absurd he.1 h

/-- C1: for every table whose header contains `t`, `Sum` and `violations`,
the computed ColumnOrder (line 32's `keys`) equals `Sum`, `violations`,
then all remaining header columns in their original order — exactly the
ColumnOrder rule of the specification; in particular the header
`t,A,Sum,B,violations,C` gives `[Sum, violations, A, B, C]` (see the
witness). -/
theorem columnOrder_matches_spec (df : Table)
    (ht : "t" ∈ df.header) (hs : "Sum" ∈ df.header) (hv : "violations" ∈ df.header) :
    keys df = specColumnOrder df.header := by
  simp only [keys, specColumnOrder, filteredKeys, List.singleton_append,
    List.cons_append, List.nil_append, List.cons.injEq, true_and]
  apply List.filter_congr
  intro k _
  by_cases h1 : k = "t" <;> by_cases h2 : k = "Sum" <;> by_cases h3 : k = "violations" <;>
    simp [h1, h2, h3]

/-- C1 witness: Scenario A — the header `t,A,Sum,B,violations,C` with two
data rows satisfies the hypotheses, and its ColumnOrder is
`[Sum, violations, A, B, C]`. -/
theorem columnOrder_matches_spec_witness :
    ("t" ∈ (["t", "A", "Sum", "B", "violations", "C"] : List String) ∧
      "Sum" ∈ (["t", "A", "Sum", "B", "violations", "C"] : List String) ∧
      "violations" ∈ (["t", "A", "Sum", "B", "violations", "C"] : List String)) ∧
    keys ⟨["t", "A", "Sum", "B", "violations", "C"],
        [[0, 10, 1, 2, 0, 3], [1, 11, 2, 3, 1, 4]]⟩ =
      specColumnOrder ["t", "A", "Sum", "B", "violations", "C"] ∧
    specColumnOrder ["t", "A", "Sum", "B", "violations", "C"] =
      ["Sum", "violations", "A", "B", "C"] :=
  ⟨⟨by decide, by decide, by decide⟩,
    columnOrder_matches_spec _ (by decide) (by decide) (by decide),
    by decide⟩

/-- C2 counterexample: Scenario B fails on the code.  For the header `t,A,B`
(no `Sum`, no `violations`) the computed ColumnOrder is not `[A, B]`: line 32
prepends `Sum` and `violations` unconditionally, giving
`[Sum, violations, A, B]`. -/
theorem no_graceful_degradation_cex :
    keys ⟨["t", "A", "B"], [[0, 1, 2]]⟩ ≠ ["A", "B"] ∧
    keys ⟨["t", "A", "B"], [[0, 1, 2]]⟩ = ["Sum", "violations", "A", "B"] := by
  constructor
  · decide
  · decide

/-- C2 (amended): when `Sum` or `violations` is absent from the header the
rule does not degrade: both designated names are still placed in the leading
slots of ColumnOrder, and the subsequent chart construction fails with the
plot error because a requested column is missing from the dataframe. -/
theorem unconditional_prepend_of_absent (df : Table)
    (h : "Sum" ∉ df.header ∨ "violations" ∉ df.header) :
    "Sum" ∈ keys df ∧ "violations" ∈ keys df ∧
      run (some df) = .error .plotError := by
  have hs : "Sum" ∈ keys df := by simp [mem_keys]
  have hv : "violations" ∈ keys df := by simp [mem_keys]
  refine ⟨hs, hv, ?_⟩
  have hc : ¬("t" ∈ df.header ∧ ∀ y ∈ keys df, y ∈ df.header) := by
    intro hcond
    rcases h with h | h
    · exact h (hcond.2 _ hs)
    · exact h (hcond.2 _ hv)
  simp only [run, readCsv, pxLine, if_neg hc]

/-- C2 amended-theorem witness: the Scenario B table `t,A,B` lacks `Sum`,
and on it `Sum` and `violations` still head the ColumnOrder while the
pipeline errors at the plot step. -/
theorem unconditional_prepend_of_absent_witness :
    ("Sum" ∉ (["t", "A", "B"] : List String) ∨
      "violations" ∉ (["t", "A", "B"] : List String)) ∧
    ("Sum" ∈ keys ⟨["t", "A", "B"], [[0, 1, 2]]⟩ ∧
      "violations" ∈ keys ⟨["t", "A", "B"], [[0, 1, 2]]⟩ ∧
      run (some ⟨["t", "A", "B"], [[0, 1, 2]]⟩) = .error .plotError) :=
  ⟨Or.inl (by decide), unconditional_prepend_of_absent _ (Or.inl (by decide))⟩

/-- C4: for a table containing a `t` column, no trace named `t` exists: `t`
is not in ColumnOrder, and in the figure the pipeline produces, `t` is bound
to the x-axis and absent from the traces. -/
theorem no_t_trace (df : Table) (fig : Figure)
    (ht : "t" ∈ df.header) (h : run (some df) = .ok fig) :
    "t" ∉ keys df ∧ fig.xAxis = "t" ∧ "t" ∉ fig.traces := by
  have hk : "t" ∉ keys df := by simp [mem_keys]
  obtain ⟨-, hfig⟩ := (run_ok_iff df fig).mp h
  subst hfig
  exact ⟨hk, rfl, hk⟩

/-- C4 witness: the header `t,Sum,violations,A` produces a figure, and `t`
is its x-axis, not one of its traces. -/
theorem no_t_trace_witness :
    ("t" ∈ (["t", "Sum", "violations", "A"] : List String) ∧
      run (some ⟨["t", "Sum", "violations", "A"], [[0, 1, 2, 3]]⟩) =
        .ok { xAxis := "t", traces := ["Sum", "violations", "A"] }) ∧
    ("t" ∉ keys ⟨["t", "Sum", "violations", "A"], [[0, 1, 2, 3]]⟩ ∧
      ({ xAxis := "t", traces := ["Sum", "violations", "A"] } : Figure).xAxis = "t" ∧
      "t" ∉ ({ xAxis := "t", traces := ["Sum", "violations", "A"] } : Figure).traces) :=
  ⟨⟨by decide, rfl⟩, no_t_trace _ _ (by decide) rfl⟩

/-- C5: ColumnOrder contains no duplicate column names whenever the parsed
header has distinct names (pandas mangles duplicate header names on read,
so a parsed header is duplicate-free); in particular `Sum` and `violations`
are not plotted twice even when they occur in the source header. -/
theorem columnOrder_nodup (df : Table) (h : df.header.Nodup) :
    (keys df).Nodup :=
  keys_nodup df h

/-- C5 witness: a header that contains both `Sum` and `violations` still
yields a duplicate-free ColumnOrder. -/
theorem columnOrder_nodup_witness :
    (["t", "Sum", "A", "violations"] : List String).Nodup ∧
    (keys ⟨["t", "Sum", "A", "violations"], [[0, 5, 1, 0]]⟩).Nodup :=
  ⟨by decide, columnOrder_nodup _ (by decide)⟩

/-- C10: the series-name list handed to the chart constructor always begins
with the literal names `Sum` and `violations`, in that order, for every
table whatsoever: line 32 prepends them unconditionally rather than
conditionally on their presence in the header. -/
theorem columnOrder_starts_sum_violations (df : Table) :
    (keys df).take 2 = ["Sum", "violations"] ∧
    keys df = "Sum" :: "violations" :: filteredKeys df :=
  ⟨rfl, rfl⟩

/-- C3: whenever the pipeline produces a chart from a table with distinct
header names, the trace count is the number of header columns minus one,
and the traces are exactly the header columns other than `t`: every column
except `t` is plotted and nothing else is. -/
theorem trace_count_complete (df : Table) (fig : Figure)
    (hnd : df.header.Nodup) (h : run (some df) = .ok fig) :
    fig.traces.length = df.header.length - 1 ∧
    (∀ c, c ∈ fig.traces ↔ (c ∈ df.header ∧ c ≠ "t")) := by
  obtain ⟨⟨ht, hsub⟩, hfig⟩ := (run_ok_iff df fig).mp h
  subst hfig
  have hmem : ∀ c, c ∈ keys df ↔ (c ∈ df.header ∧ c ≠ "t") := by
    intro c
    constructor
    · intro hc
      rcases (mem_keys df c).mp hc with hS | hV | ⟨hin, hnt, -, -⟩
      · subst hS
        exact ⟨hsub _ hc, by decide⟩
      · subst hV
        exact ⟨hsub _ hc, by decide⟩
      · exact ⟨hin, hnt⟩
    · rintro ⟨hin, hnt⟩
      by_cases hS : c = "Sum"
      · exact (mem_keys df c).mpr (Or.inl hS)
      by_cases hV : c = "violations"
      · exact (mem_keys df c).mpr (Or.inr (Or.inl hV))
      exact (mem_keys df c).mpr (Or.inr (Or.inr ⟨hin, hnt, hS, hV⟩))
  refine ⟨?_, hmem⟩
  have hknd : (keys df).Nodup := keys_nodup df hnd
  have hset : (keys df).toFinset = df.header.toFinset.erase "t" := by
    ext c
    rw [List.mem_toFinset, Finset.mem_erase, List.mem_toFinset, hmem c]
    exact and_comm
  have h1 : (keys df).toFinset.card = (keys df).length :=
    List.toFinset_card_of_nodup hknd
  have h2 : df.header.toFinset.card = df.header.length :=
    List.toFinset_card_of_nodup hnd
  have h3 : "t" ∈ df.header.toFinset := List.mem_toFinset.mpr ht
  show (keys df).length = df.header.length - 1
  rw [← h1, hset, Finset.card_erase_of_mem h3, h2]

/-- C3 witness: the Scenario A table has 6 columns and its chart has 5
traces, one per non-`t` column. -/
theorem trace_count_complete_witness :
    ((["t", "A", "Sum", "B", "violations", "C"] : List String).Nodup ∧
      run (some ⟨["t", "A", "Sum", "B", "violations", "C"],
          [[0, 10, 1, 2, 0, 3], [1, 11, 2, 3, 1, 4]]⟩) =
        .ok { xAxis := "t", traces := ["Sum", "violations", "A", "B", "C"] }) ∧
    ((["Sum", "violations", "A", "B", "C"] : List String).length =
        (["t", "A", "Sum", "B", "violations", "C"] : List String).length - 1 ∧
      (∀ c, c ∈ (["Sum", "violations", "A", "B", "C"] : List String) ↔
        (c ∈ (["t", "A", "Sum", "B", "violations", "C"] : List String) ∧ c ≠ "t"))) :=
  ⟨⟨by decide, rfl⟩,
    trace_count_complete
      ⟨["t", "A", "Sum", "B", "violations", "C"],
        [[0, 10, 1, 2, 0, 3], [1, 11, 2, 3, 1, 4]]⟩
      { xAxis := "t", traces := ["Sum", "violations", "A", "B", "C"] }
      (by decide) rfl⟩

/-- C6 counterexample: a table that parses but lacks `t` does make the
operation fail, but not with the error class of a missing, unreadable or
malformed file: the parse step succeeds and the failure is the plot-step
error (plotly raises `ValueError` for the absent `x` column), while a
missing file fails with the read error of `pd.read_csv`. -/
theorem missing_t_error_class_cex :
    run (some ⟨["A", "B"], [[1, 2]]⟩) = .error .plotError ∧
    run none = .error .readError ∧
    PipelineError.plotError ≠ PipelineError.readError :=
  ⟨rfl, rfl, by decide⟩

/-- C6 (amended): a parsed table lacking the `t` column makes the operation
fail, but at the chart-construction step with the plot error class, which is
distinct from the error class raised for a missing, unreadable or malformed
file. -/
theorem missing_t_fails_plot_error (df : Table) (h : "t" ∉ df.header) :
    run (some df) = .error .plotError ∧
    PipelineError.plotError ≠ PipelineError.readError := by
  have hc : ¬("t" ∈ df.header ∧ ∀ y ∈ keys df, y ∈ df.header) := fun hcond => h hcond.1
  exact ⟨by simp only [run, readCsv, pxLine, if_neg hc], by decide⟩

/-- C6 amended-theorem witness: the header `A,B` has no `t` and the pipeline
errors at the plot step on it. -/
theorem missing_t_fails_plot_error_witness :
    "t" ∉ (["A", "B"] : List String) ∧
    (run (some ⟨["A", "B"], [[3, 4]]⟩) = .error .plotError ∧
      PipelineError.plotError ≠ PipelineError.readError) :=
  ⟨by decide, missing_t_fails_plot_error _ (by decide)⟩

/-- C8: the transform is deterministic and depends only on the parsed
table's header, so a second run over an unchanged input directory produces
a figure with the identical set and order of traces. -/
theorem run_deterministic (df1 df2 : Table) (h : df1.header = df2.header) :
    run (some df1) = run (some df2) := by
  obtain ⟨h1, r1⟩ := df1
  obtain ⟨h2, r2⟩ := df2
  change h1 = h2 at h
  subst h
  rfl

/-- C8 witness: two reads of the same header (even with different row
contents) yield identical pipeline results. -/
theorem run_deterministic_witness :
    (Table.header ⟨["t", "Sum", "violations"], [[0, 1, 0]]⟩ =
      Table.header ⟨["t", "Sum", "violations"], [[1, 2, 3], [2, 3, 4]]⟩) ∧
    run (some ⟨["t", "Sum", "violations"], [[0, 1, 0]]⟩) =
      run (some ⟨["t", "Sum", "violations"], [[1, 2, 3], [2, 3, 4]]⟩) :=
  ⟨rfl, run_deterministic _ _ rfl⟩

/-- C9: for a measurement directory path (non-empty, no trailing separator),
the output is written to the fixed name `plot_testbed.html` inside that same
directory — the one holding the input `throughput_per_egress.csv` — any
pre-existing file at that path is overwritten with the new document, no
other path is touched, and the reported path is exactly the written one. -/
theorem output_path_fixed (path html : String) (fs0 : FileSystem)
    (h0 : path ≠ "") (h1 : path.data.getLast? ≠ some '/') :
    plot_file path = path ++ "/" ++ "plot_testbed.html" ∧
    file path = path ++ "/" ++ "throughput_per_egress.csv" ∧
    (runMain path html fs0).fs (plot_file path) = some html ∧
    (∀ q, q ≠ plot_file path → (runMain path html fs0).fs q = fs0 q) ∧
    (runMain path html fs0).reported = plot_file path := by
  refine ⟨?_, ?_, ?_, ?_, rfl⟩
  · simp [plot_file, joinPath, h0, h1]
  · simp [file, joinPath, h0, h1]
  · simp [runMain, writeHtml]
  · intro q hq
    simp [runMain, writeHtml, hq]

/-- C9 witness: for the directory `m1` holding a stale `plot_testbed.html`,
the run overwrites `m1/plot_testbed.html` with the new document, leaves the
input file alone, and reports that path. -/
theorem output_path_fixed_witness :
    ("m1" ≠ "" ∧ "m1".data.getLast? ≠ some '/') ∧
    (plot_file "m1" = "m1" ++ "/" ++ "plot_testbed.html" ∧
      file "m1" = "m1" ++ "/" ++ "throughput_per_egress.csv" ∧
      (runMain "m1" "newdoc"
          (fun q => if q = "m1/plot_testbed.html" then some "stale" else none)).fs
        (plot_file "m1") = some "newdoc" ∧
      (∀ q, q ≠ plot_file "m1" →
        (runMain "m1" "newdoc"
            (fun q => if q = "m1/plot_testbed.html" then some "stale" else none)).fs q =
          (fun q => if q = "m1/plot_testbed.html" then some "stale" else none : FileSystem) q) ∧
      (runMain "m1" "newdoc"
          (fun q => if q = "m1/plot_testbed.html" then some "stale" else none)).reported =
        plot_file "m1") :=
  ⟨⟨by decide, by decide⟩,
    output_path_fixed "m1" "newdoc"
      (fun q => if q = "m1/plot_testbed.html" then some "stale" else none)
      (by decide) (by decide)⟩

end PlotTestbed
